import Mathlib

set_option linter.unusedVariables false

/-!
Shallow embedding of the resilience policy engine
(packages/resilience: resilience.ts, errors.ts, defaults.ts, types.ts).

The engine wraps an asynchronous operation with retry, bulkhead, timeout
and fallback policies.  The pure decision logic (error classification,
error transformation, fallback dispatch, configuration defaulting) is
translated directly from the TypeScript source.  The policy loops that the
source delegates to the external cockatiel library (the retry loop, the
bulkhead admission gate and the backoff generators) are not part of the
source tree; those are modelled from the specification and marked as such
in their doc comments.

An operation is embedded as a function from the zero-based invocation
index to a result, so that a wrapped call is a pure function of the
configuration and the operation; wall-clock time and cross-call
concurrency are outside the embedding.
-/

/-! ## Strings: JS includes and toLowerCase on character lists -/

/-- Decimal digit characters. -/
def digitChars : List Char := ['0', '1', '2', '3', '4', '5', '6', '7', '8', '9']

/-- Character for a single decimal digit below ten. -/
def digitChar (d : Nat) : Char :=
  if d = 0 then '0'
  else if d = 1 then '1'
  else if d = 2 then '2'
  else if d = 3 then '3'
  else if d = 4 then '4'
  else if d = 5 then '5'
  else if d = 6 then '6'
  else if d = 7 then '7'
  else if d = 8 then '8'
  else '9'

/-- Decimal rendering worker over an explicit fuel argument, so that the
definition is structurally recursive and reduces definitionally. -/
def natToCharsAux : Nat → Nat → List Char
  | 0, _ => []
  | fuel + 1, n =>
    if n < 10 then [digitChar n]
    else natToCharsAux fuel (n / 10) ++ [digitChar (n % 10)]

/-- Decimal rendering of a natural number as a character list, matching the
JS template-string rendering of a number used in the error messages. -/
def natToChars (n : Nat) : List Char := natToCharsAux (n + 1) n

/-- Decimal rendering of a natural number as a string. -/
def natToString (n : Nat) : String := String.mk (natToChars n)

/-- Check that the second character list occurs at the head of the first. -/
def seqStartsWith : List Char → List Char → Bool
  | _, [] => true
  | [], _ :: _ => false
  | c :: cs, d :: ds => c == d && seqStartsWith cs ds

/-- Check that the second character list occurs contiguously anywhere in the
first; this is the semantics of JS String.prototype.includes. -/
def seqContains : List Char → List Char → Bool
  | [], needle => needle.isEmpty
  | c :: cs, needle => seqStartsWith (c :: cs) needle || seqContains cs needle

/-- JS hay.includes(needle). -/
def strIncludes (hay needle : String) : Bool := seqContains hay.data needle.data

/-- JS s.toLowerCase(), as a character list. -/
def lowerChars (s : String) : List Char := s.data.map Char.toLower

/-! ## JS error values -/

/-- Presence and shape of a numeric-or-not JS object property, as tested by
the in-operator and a typeof check in getStatusCode. -/
inductive PropVal where
  | absent
  | nonNumber
  | number (n : Int)
deriving DecidableEq

/-- Whether the property is present on the object. -/
def PropVal.present : PropVal → Bool
  | .absent => false
  | _ => true

/-- The numeric value of the property, when it is present and a number. -/
def PropVal.toNum : PropVal → Option Int
  | .number n => some n
  | _ => none

/-- Shape of the response property of an error: absent, present but not a
truthy object, or a truthy object with its own status property. -/
inductive RespVal where
  | absent
  | nonObject
  | object (status : PropVal)
deriving DecidableEq

/-- Whether the response property is present on the object. -/
def RespVal.present : RespVal → Bool
  | .absent => false
  | _ => true

/-- The observable fields of an ordinary JS Error relevant to the
classifier: message, HTTP-ish status carriers and a network error code. -/
structure ErrorFields where
  message : String := ""
  status : PropVal := .absent
  statusCode : PropVal := .absent
  response : RespVal := .absent
  code : Option String := none
deriving DecidableEq

/-- The error values that flow through the engine: ordinary errors thrown
by operations, the two cockatiel error classes the transformation tests
with instanceof, and the four custom classes of errors.ts.  The generic
ResilienceError base class is included for completeness although the
engine itself never constructs it. -/
inductive JsError where
  | plain (fields : ErrorFields)
  | cockatielBulkheadRejected
  | cockatielTaskCancelled
  | resilienceBase (message : String)
  | retryExhausted (attempts : Nat) (lastError : JsError)
  | timeoutErr (duration : Nat)
  | bulkheadRejectedErr (queueSize : Nat) (maxQueue : Nat)
deriving DecidableEq

/-- The message of an error.  The custom classes build their messages in
their constructors in errors.ts; cockatiel messages are fixed texts of the
library (never inspected by the source before an instanceof test). -/
def JsError.message : JsError → String
  | .plain f => f.message
  | .cockatielBulkheadRejected => "Bulkhead capacity exceeded"
  | .cockatielTaskCancelled => "Operation cancelled"
  | .resilienceBase m => m
  | .retryExhausted a last =>
      "Retry exhausted after " ++ natToString a ++ " attempts: " ++ JsError.message last
  | .timeoutErr d => "Operation timed out after " ++ natToString d ++ "ms"
  | .bulkheadRejectedErr q mq =>
      "Bulkhead queue full: " ++ natToString q ++ "/" ++ natToString mq ++ " requests queued"

/-- The code property of an error (NodeJS.ErrnoException style). -/
def JsError.code : JsError → Option String
  | .plain f => f.code
  | _ => none

/-- Whether the error is an instance of one of the two cockatiel error
classes tested by transformCockatielError. -/
def isCockatielInstance : JsError → Bool
  | .cockatielBulkheadRejected => true
  | .cockatielTaskCancelled => true
  | _ => false

/-- Whether the error is an instance of the ResilienceError hierarchy of
errors.ts (the four canonical kinds of the taxonomy). -/
def isCanonicalJsError : JsError → Bool
  | .resilienceBase _ => true
  | .retryExhausted _ _ => true
  | .timeoutErr _ => true
  | .bulkheadRejectedErr _ _ => true
  | _ => false

/-! ## Default error classifier (defaults.ts) -/

/-- HTTP status codes that should NOT trigger a retry (defaults.ts). -/
def NON_RETRYABLE_STATUS_CODES : List Int := [400, 401, 403, 404, 422]

/-- Network error codes that should trigger a retry (defaults.ts). -/
def NETWORK_ERROR_CODES : List String :=
  ["ECONNRESET", "ETIMEDOUT", "ECONNREFUSED", "ENETUNREACH"]

/-- isHttpError of defaults.ts: an Error carrying a status, statusCode or
response property. -/
def isHttpError : JsError → Bool
  | .plain f => f.status.present || f.statusCode.present || f.response.present
  | _ => false

/-- getStatusCode of defaults.ts: the first numeric value among the status
property, the statusCode property and the nested response.status. -/
def getStatusCode : JsError → Option Int
  | .plain f =>
      match f.status.toNum with
      | some n => some n
      | none =>
        match f.statusCode.toNum with
        | some n => some n
        | none =>
          match f.response with
          | .object s => s.toNum
          | _ => none
  | _ => none

/-- isNetworkError of defaults.ts: a recognized network error code, or a
lowercased message containing a fetch-failed or network text. -/
def isNetworkError (e : JsError) : Bool :=
  (match e.code with
   | some c => (c != "") && NETWORK_ERROR_CODES.contains c
   | none => false)
  || seqContains (lowerChars e.message) "fetch failed".data
  || seqContains (lowerChars e.message) "network".data

/-- isRetryableError of defaults.ts.  The early returns inside the
HTTP-error branch are modelled as an Option Bool that falls through to the
network-error check when it is none. -/
def isRetryableError (e : JsError) : Bool :=
  (if isHttpError e then
    match getStatusCode e with
    | some s =>
      if NON_RETRYABLE_STATUS_CODES.contains s then some false
      else if (500 : Int) ≤ s then some true
      else none
    | none => none
   else none).getD (isNetworkError e)

/-- The HTTP-like status a given error carries, as consulted by the
classifier: the extracted status code, gated by the isHttpError test. -/
def httpStatusOf (e : JsError) : Option Int :=
  if isHttpError e then getStatusCode e else none

/-! ## Values, configuration and defaults (types.ts) -/

/-- JS runtime values returned by wrapped operations and used as fallback
slots: either a non-function value carrying a tag, or a function value.
The distinction mirrors the typeof dispatch in executeWithFallback. -/
inductive JsValue where
  | prim (tag : String)
  | func (f : JsError → JsValue)

/-- RetryOptions of types.ts; every field is optional. -/
structure RetryOptions where
  attempts : Option Nat := none
  delay : Option Nat := none
  maxDelay : Option Nat := none
  jitter : Option Bool := none
  shouldRetry : Option (JsError → Bool) := none

/-- BulkheadOptions of types.ts; every field is optional. -/
structure BulkheadOptions where
  maxConcurrent : Option Nat := none
  maxQueue : Option Nat := none

/-- ResilienceOptions of types.ts (logger and metrics are modelled by the
event fields of CallResult; name is correlation-only). -/
structure ResilienceOptions where
  retry : Option RetryOptions := none
  bulkhead : Option BulkheadOptions := none
  timeout : Option Nat := none
  fallback : Option JsValue := none

/-- RETRY_DEFAULTS.attempts of types.ts. -/
def RETRY_DEFAULTS_attempts : Nat := 3

/-- BULKHEAD_DEFAULTS.maxConcurrent of types.ts. -/
def BULKHEAD_DEFAULTS_maxConcurrent : Nat := 10

/-- BULKHEAD_DEFAULTS.maxQueue of types.ts. -/
def BULKHEAD_DEFAULTS_maxQueue : Nat := 100

/-- TIMEOUT_DEFAULT of types.ts. -/
def TIMEOUT_DEFAULT : Nat := 30000

/-- The timeout the wrapped call passes to the error transformation:
timeout with a double-question-mark TIMEOUT_DEFAULT. -/
def cfgTimeout (opts : ResilienceOptions) : Nat :=
  opts.timeout.getD TIMEOUT_DEFAULT

/-- The maxQueue the wrapped call passes to the error transformation:
the optional-chained bulkhead maxQueue with the bulkhead default. -/
def cfgMaxQueue (opts : ResilienceOptions) : Nat :=
  (opts.bulkhead.bind BulkheadOptions.maxQueue).getD BULKHEAD_DEFAULTS_maxQueue

/-- The attempts the wrapped call passes to the error transformation:
the optional-chained retry attempts with the retry default. -/
def cfgAttempts (opts : ResilienceOptions) : Nat :=
  (opts.retry.bind RetryOptions.attempts).getD RETRY_DEFAULTS_attempts

/-! ## Error transformation (resilience.ts, transformCockatielError) -/

/-- The config record passed to transformCockatielError. -/
structure TransformConfig where
  timeout : Option Nat := none
  maxQueue : Option Nat := none
  attempts : Option Nat := none

/-- transformCockatielError of resilience.ts: cockatiel bulkhead rejections
become BulkheadRejectedError with both fields set to the configured
maxQueue, cockatiel task cancellations become TimeoutError, any other
error whose message includes the text retry becomes RetryExhaustedError
around that error, and everything else is returned unchanged. -/
def transformCockatielError (e : JsError) (cfg : TransformConfig) : JsError :=
  match e with
  | .cockatielBulkheadRejected =>
      .bulkheadRejectedErr (cfg.maxQueue.getD 0) (cfg.maxQueue.getD 0)
  | .cockatielTaskCancelled => .timeoutErr (cfg.timeout.getD 0)
  | e0 =>
      if strIncludes e0.message "retry" then .retryExhausted (cfg.attempts.getD 0) e0
      else e0

/-- The transform config executeWithFallback builds: the wrapped-call
error config with attempts pinned to zero. -/
def fallbackCfg (opts : ResilienceOptions) : TransformConfig :=
  { timeout := some (cfgTimeout opts), maxQueue := some (cfgMaxQueue opts), attempts := some 0 }

/-- The transform config of the outer catch of the wrapped call. -/
def outerCfg (opts : ResilienceOptions) : TransformConfig :=
  { timeout := some (cfgTimeout opts), maxQueue := some (cfgMaxQueue opts),
    attempts := some (cfgAttempts opts) }

/-! ## Composed policy execution -/

/-- Modelled from the spec: the retry loop the source delegates to the
cockatiel retry policy (spec 4.2, Retry Controller) is not in the source
tree.  The operation is invoked; on success the loop stops; on failure,
if the classifier rejects the error or the attempt count has reached the
maximum, the loop terminates exhausted with RetryExhausted carrying the
attempts made and the last error; otherwise it retries.  The first
component counts the invocations made; made is the count so far and rem
the attempts still allowed after the current one. -/
def retryExec (sr : JsError → Bool) (op : Nat → Except JsError JsValue) :
    Nat → Nat → Nat × Except JsError JsValue
  | made, 0 =>
    match op made with
    | .ok v => (made + 1, .ok v)
    | .error e => (made + 1, .error (.retryExhausted (made + 1) e))
  | made, rem + 1 =>
    match op made with
    | .ok v => (made + 1, .ok v)
    | .error e =>
      if sr e then retryExec sr op (made + 1) rem
      else (made + 1, .error (.retryExhausted (made + 1) e))

/-- One sequential execution of the composed policy pipeline built by
withResilience (composePolicies of policies.ts): with a retry config the
cockatiel retry policy drives the operation with the configured or default
classifier and attempt count, otherwise the operation runs once.  In a
single-call embedding without wall-clock time the timeout policy never
fires and the bulkhead admits, so both are identity here; the bulkhead
gate itself is modelled separately by bulkheadAcquire. -/
def composedExecute (opts : ResilienceOptions) (op : Nat → Except JsError JsValue) :
    Nat × Except JsError JsValue :=
  match opts.retry with
  | some r =>
      retryExec (r.shouldRetry.getD isRetryableError) op 0
        ((r.attempts.getD RETRY_DEFAULTS_attempts) - 1)
  | none => (1, op 0)

/-! ## Fallback and the wrapped call (resilience.ts) -/

/-- executeWithFallback of resilience.ts, applied to the settled result of
the composed policy.  On failure the error is transformed with attempts
zero; with no fallback the transformed error is rethrown; otherwise a
warning carrying the transformed error is logged and the fallback is
applied: a function fallback is called with the transformed error, any
other fallback is returned as the value.  The second component is the
warning event. -/
def executeWithFallback (inner : Except JsError JsValue) (fallback : Option JsValue)
    (cfg : TransformConfig) : Except JsError JsValue × Option JsError :=
  match inner with
  | .ok v => (.ok v, none)
  | .error e =>
    let te := transformCockatielError e cfg
    match fallback with
    | none => (.error te, none)
    | some f =>
      match f with
      | .func g => (.ok (g te), some te)
      | v => (.ok v, some te)

/-- The observable outcome of one wrapped call: how often the raw
operation ran, the settled result, and which observability events fired
(onSuccess, onFailure with its transformed error, and the falling-back
warning with its transformed error). -/
structure CallResult where
  invocations : Nat
  outcome : Except JsError JsValue
  onSuccessFired : Bool
  onFailureFired : Option JsError
  fallbackWarn : Option JsError

/-- The outer half of the wrapped function returned by withResilience:
executeWithFallback runs over the pipeline result; if it returns, success
metrics fire; if it throws, the error is transformed once more with the
configured attempts and failure metrics fire with that error, which is
then rethrown. -/
def outcomeFromPipeline (opts : ResilienceOptions) (invs : Nat)
    (inner : Except JsError JsValue) : CallResult :=
  match executeWithFallback inner opts.fallback (fallbackCfg opts) with
  | (.ok v, warn) =>
      { invocations := invs, outcome := .ok v, onSuccessFired := true,
        onFailureFired := none, fallbackWarn := warn }
  | (.error e, warn) =>
      let te := transformCockatielError e (outerCfg opts)
      { invocations := invs, outcome := .error te, onSuccessFired := false,
        onFailureFired := some te, fallbackWarn := warn }

/-- withResilience of resilience.ts, specialized to one sequential call of
the wrapped function on a pure operation. -/
def withResilienceCall (opts : ResilienceOptions) (op : Nat → Except JsError JsValue) :
    CallResult :=
  match composedExecute opts op with
  | (invs, inner) => outcomeFromPipeline opts invs inner

/-! ## Bulkhead admission and backoff delays (modelled) -/

/-- The bulkhead state: executions in flight and the wait-queue length. -/
structure BulkheadState where
  inFlight : Nat
  queueLen : Nat
deriving DecidableEq

/-- Outcome of a bulkhead admission request. -/
inductive AcquireOutcome where
  | admitted
  | queued
  | rejected
deriving DecidableEq

/-- Modelled from the spec: the admission gate of the cockatiel bulkhead
policy (spec 4.3) is not in the source tree.  A caller is admitted when a
concurrency slot is free, queued while the wait queue has room, and
otherwise rejected synchronously without being enqueued. -/
def bulkheadAcquire (maxConcurrent maxQueue : Nat) (st : BulkheadState) :
    AcquireOutcome × BulkheadState :=
  if st.inFlight < maxConcurrent then (.admitted, { st with inFlight := st.inFlight + 1 })
  else if st.queueLen < maxQueue then (.queued, { st with queueLen := st.queueLen + 1 })
  else (.rejected, st)

/-- The backoff kinds of the retry configuration. -/
inductive BackoffKind where
  | exponential
  | fixed
deriving DecidableEq

/-- Modelled from the spec: the backoff generators the source takes from
cockatiel (ExponentialBackoff, ConstantBackoff) are not in the source
tree.  With the exponential kind the delay before retry number attempt
(1-indexed) is the base delay doubled per previous attempt, capped at
maxDelay; with the fixed kind it is the base delay. -/
def computedDelay (kind : BackoffKind) (baseDelay maxDelay attempt : Nat) : Nat :=
  match kind with
  | .exponential => min (baseDelay * 2 ^ (attempt - 1)) maxDelay
  | .fixed => baseDelay

/-- Modelled from the spec: with jitter enabled the realized delay is a
random value derived from the computed delay and not exceeding it (the
sample argument stands for the randomness); with jitter disabled the
computed delay is used exactly. -/
def realizedDelay (jitter : Bool) (sample delay : Nat) : Nat :=
  if jitter then min sample delay else delay

/-! ## Helper lemmas -/

/-- A character of a matched pattern occurs in the scanned list. -/
theorem mem_of_seqStartsWith {c : Char} :
    ∀ (hay nd : List Char), seqStartsWith hay nd = true → c ∈ nd → c ∈ hay := by
  intro hay nd
  induction nd generalizing hay with
  | nil => intro _ hc; cases hc
  | cons d ds ih =>
    intro hs hc
    cases hay with
    | nil => simp [seqStartsWith] at hs
    | cons a rest =>
      simp only [seqStartsWith, Bool.and_eq_true, beq_iff_eq] at hs
      rcases List.mem_cons.mp hc with rfl | hmem
      · rw [hs.1]; exact List.mem_cons_self _ _
      · exact List.mem_cons_of_mem _ (ih rest hs.2 hmem)

/-- A character of a contained pattern occurs in the containing list. -/
theorem mem_of_seqContains {c : Char} :
    ∀ (hay nd : List Char), seqContains hay nd = true → c ∈ nd → c ∈ hay := by
  intro hay
  induction hay with
  | nil =>
    intro nd hs hc
    cases nd with
    | nil => cases hc
    | cons x xs => simp [seqContains, List.isEmpty_cons] at hs
  | cons a rest ih =>
    intro nd hs hc
    simp only [seqContains, Bool.or_eq_true] at hs
    rcases hs with hs | hs
    · exact mem_of_seqStartsWith _ _ hs hc
    · exact List.mem_cons_of_mem _ (ih nd hs hc)

/-- Containment is preserved when list material is prepended. -/
theorem seqContains_append_right (xs ys nd : List Char) (h : seqContains ys nd = true) :
    seqContains (xs ++ ys) nd = true := by
  induction xs with
  | nil => simpa using h
  | cons a rest ih =>
    simp only [List.cons_append, seqContains, Bool.or_eq_true]
    exact Or.inr ih

/-- Every digit character is a digit character. -/
theorem digitChar_mem (d : Nat) : digitChar d ∈ digitChars := by
  unfold digitChar digitChars
  repeat' split
  all_goals decide

/-- The decimal rendering worker uses only digit characters. -/
theorem natToCharsAux_subset :
    ∀ (fuel n : Nat), ∀ c ∈ natToCharsAux fuel n, c ∈ digitChars := by
  intro fuel
  induction fuel with
  | zero => intro n c hc; simp [natToCharsAux] at hc
  | succ f ih =>
    intro n c hc
    rw [natToCharsAux] at hc
    by_cases hn : n < 10
    · rw [if_pos hn] at hc
      simp only [List.mem_singleton] at hc
      subst hc
      exact digitChar_mem n
    · rw [if_neg hn] at hc
      rcases List.mem_append.mp hc with hmem | hmem
      · exact ih (n / 10) c hmem
      · simp only [List.mem_singleton] at hmem
        subst hmem
        exact digitChar_mem _

/-- The decimal rendering of a natural number uses only digit characters. -/
theorem natToChars_subset (n : Nat) : ∀ c ∈ natToChars n, c ∈ digitChars :=
  natToCharsAux_subset (n + 1) n

/-- String append concatenates the underlying character lists. -/
theorem str_data_append (a b : String) : (a ++ b).data = a.data ++ b.data := by
  cases a; cases b; rfl

/-- The character list of the decimal rendering. -/
theorem natToString_data (n : Nat) : (natToString n).data = natToChars n := rfl

/-- JS includes is preserved when string material is prepended. -/
theorem strIncludes_append_right (x y nd : String) (h : strIncludes y nd = true) :
    strIncludes (x ++ y) nd = true := by
  unfold strIncludes at h ⊢
  rw [str_data_append]
  exact seqContains_append_right _ _ _ h

/-- The message of a BulkheadRejectedError never contains the text retry,
whatever the two numeric fields are. -/
theorem bulkheadMsg_no_retry (q mq : Nat) :
    strIncludes (JsError.message (.bulkheadRejectedErr q mq)) "retry" = false := by
  cases hb : strIncludes (JsError.message (.bulkheadRejectedErr q mq)) "retry"
  · rfl
  · exfalso
    have hb2 : seqContains (JsError.message (.bulkheadRejectedErr q mq)).data
        ("retry").data = true := hb
    have hy := mem_of_seqContains _ _ hb2 (show ('y' : Char) ∈ ("retry").data by decide)
    simp only [JsError.message, str_data_append, natToString_data, List.mem_append] at hy
    rcases hy with ((((h1 | h2) | h3) | h4) | h5)
    · exact absurd h1 (by decide)
    · exact absurd (natToChars_subset q _ h2) (by decide)
    · exact absurd h3 (by decide)
    · exact absurd (natToChars_subset mq _ h4) (by decide)
    · exact absurd h5 (by decide)

/-- An error that is not a cockatiel instance and whose message does not
contain the text retry passes through the error transformation unchanged. -/
theorem transform_passthrough (e : JsError) (cfg : TransformConfig)
    (h1 : isCockatielInstance e = false)
    (h2 : strIncludes (JsError.message e) "retry" = false) :
    transformCockatielError e cfg = e := by
  cases e <;> simp_all [transformCockatielError, isCockatielInstance]

/-- The error transformation yields either a canonical error of errors.ts
or an error whose message does not contain the text retry. -/
theorem transform_canonical_or_noretry (e : JsError) (cfg : TransformConfig) :
    isCanonicalJsError (transformCockatielError e cfg) = true ∨
      strIncludes (JsError.message (transformCockatielError e cfg)) "retry" = false := by
  cases e with
  | plain f =>
    cases hx : strIncludes (JsError.message (JsError.plain f)) "retry" with
    | true => left; simp [transformCockatielError, hx, isCanonicalJsError]
    | false => right; simp [transformCockatielError, hx]
  | cockatielBulkheadRejected => left; rfl
  | cockatielTaskCancelled => left; rfl
  | resilienceBase m =>
    left; simp only [transformCockatielError]; split <;> rfl
  | retryExhausted a last =>
    left; simp only [transformCockatielError]; split <;> rfl
  | timeoutErr d =>
    left; simp only [transformCockatielError]; split <;> rfl
  | bulkheadRejectedErr q mq =>
    left; simp only [transformCockatielError]; split <;> rfl

/-- The invocation count reported by the wrapped call is the count handed
over by the pipeline. -/
theorem outcomeFromPipeline_invocations (opts : ResilienceOptions) (invs : Nat)
    (inner : Except JsError JsValue) :
    (outcomeFromPipeline opts invs inner).invocations = invs := by
  unfold outcomeFromPipeline
  split <;> rfl

/-- Closed form of the retry loop over an operation that always fails with
errors the classifier accepts. -/
theorem retryExec_allFail (sr : JsError → Bool) (errOf : Nat → JsError)
    (hsr : ∀ k, sr (errOf k) = true) :
    ∀ (rem made : Nat),
      retryExec sr (fun k => .error (errOf k)) made rem =
        (made + rem + 1, .error (.retryExhausted (made + rem + 1) (errOf (made + rem)))) := by
  intro rem
  induction rem with
  | zero => intro made; simp [retryExec]
  | succ r ih =>
    intro made
    simp only [retryExec, hsr made, if_true]
    rw [ih (made + 1)]
    have h1 : made + 1 + r + 1 = made + (r + 1) + 1 := by omega
    have h2 : made + 1 + r = made + (r + 1) := by omega
    rw [h1, h2]

/-- The retry loop over an operation that always fails ends in an error. -/
theorem retryExec_fails (sr : JsError → Bool) (op : Nat → Except JsError JsValue)
    (hfail : ∀ k, ∃ err, op k = .error err) :
    ∀ (rem made : Nat), ∃ m e, retryExec sr op made rem = (m, .error e) := by
  intro rem
  induction rem with
  | zero =>
    intro made
    obtain ⟨err, herr⟩ := hfail made
    exact ⟨made + 1, .retryExhausted (made + 1) err, by simp [retryExec, herr]⟩
  | succ r ih =>
    intro made
    obtain ⟨err, herr⟩ := hfail made
    by_cases hs : sr err = true
    · obtain ⟨m, e, hm⟩ := ih (made + 1)
      exact ⟨m, e, by simp [retryExec, herr, hs, hm]⟩
    · simp only [Bool.not_eq_true] at hs
      exact ⟨made + 1, .retryExhausted (made + 1) err, by simp [retryExec, herr, hs]⟩

/-- The composed pipeline over an operation that always fails ends in an
error. -/
theorem composed_fails (opts : ResilienceOptions) (op : Nat → Except JsError JsValue)
    (hfail : ∀ k, ∃ err, op k = .error err) :
    ∃ m e, composedExecute opts op = (m, .error e) := by
  unfold composedExecute
  cases hr : opts.retry with
  | none =>
    obtain ⟨err, herr⟩ := hfail 0
    exact ⟨1, err, by simp [herr]⟩
  | some r => exact retryExec_fails _ op hfail _ 0

/-- An error that is not a cockatiel instance and whose message contains
the text retry is wrapped into RetryExhaustedError by the transformation. -/
theorem transform_wraps (e : JsError) (cfg : TransformConfig)
    (h1 : isCockatielInstance e = false)
    (h2 : strIncludes (JsError.message e) "retry" = true) :
    transformCockatielError e cfg = .retryExhausted (cfg.attempts.getD 0) e := by
  cases e <;> simp_all [transformCockatielError, isCockatielInstance]

/-- With no fallback configured, a pipeline error surfaces after passing
through the error transformation twice: once inside executeWithFallback
with attempts zero and once in the outer catch of the wrapped call. -/
theorem pipeline_error_outcome (opts : ResilienceOptions) (invs : Nat) (e : JsError)
    (hfb : opts.fallback = none) :
    (outcomeFromPipeline opts invs (.error e)).outcome =
      .error (transformCockatielError
        (transformCockatielError e (fallbackCfg opts)) (outerCfg opts)) := by
  unfold outcomeFromPipeline executeWithFallback
  rw [hfb]

/-! ## Concrete sample values -/

/-- A plain error with no classifier-relevant fields. -/
def eBoom : JsError := .plain { message := "boom" }

/-- An HTTP 404 error as built by the test helper createHttpError. -/
def e404 : JsError := .plain { message := "HTTP Error 404", status := .number 404 }

/-- An HTTP 500 error as built by the test helper createHttpError. -/
def e500 : JsError := .plain { message := "HTTP Error 500", status := .number 500 }

/-- A network error carrying the ECONNRESET code. -/
def eConnReset : JsError := .plain { message := "socket hang up", code := some "ECONNRESET" }

/-- An unclassifiable error. -/
def eUnknown : JsError := .plain { message := "Unknown error" }

/-- A retryable network error whose message happens to contain the text
retry. -/
def eNetRetry : JsError := .plain { message := "network retry glitch", code := some "ECONNRESET" }

/-- A non-cockatiel error whose message contains the text retry. -/
def eRetryMsg : JsError := .plain { message := "retry later" }

/-- Options with no policy configured at all. -/
def noPolicyOpts : ResilienceOptions := {}

/-- Options with only a retry policy with the given attempt count. -/
def retryOnlyOpts (N : Nat) : ResilienceOptions := { retry := some { attempts := some N } }

/-- Options with only a non-function fallback value. -/
def fbOpts : ResilienceOptions := { fallback := some (.prim "V") }

/-- Options with only a bulkhead with one slot and no queue. -/
def bhOpts : ResilienceOptions :=
  { bulkhead := some { maxConcurrent := some 1, maxQueue := some 0 } }

/-- A fallback function value. -/
def gCalled : JsError → JsValue := fun _ => .prim "called"

/-- Options with a function fallback. -/
def fnOpts : ResilienceOptions := { fallback := some (.func gCalled) }

/-- An operation that fails with the same error on every invocation. -/
def opOf (e : JsError) : Nat → Except JsError JsValue := fun _ => .error e

/-- The wrapped call is the pipeline outcome over the composed execution. -/
theorem withResilienceCall_eq (opts : ResilienceOptions) (op : Nat → Except JsError JsValue) :
    withResilienceCall opts op =
      outcomeFromPipeline opts (composedExecute opts op).1 (composedExecute opts op).2 := by
  unfold withResilienceCall
  rcases composedExecute opts op with ⟨a, b⟩
  rfl

/-! ## Claims -/

/-- C1 counterexample: with no policy configured, an operation failing
with a plain error surfaces that raw error unchanged to the caller, and
it is none of the four canonical kinds; the claim that a raw error is
never surfaced unwrapped is false on the code. -/
theorem c1_raw_error_surfaces_counterexample :
    (withResilienceCall noPolicyOpts (opOf eBoom)).outcome = .error eBoom ∧
      isCanonicalJsError eBoom = false :=
  ⟨rfl, rfl⟩

/-- C1 (amended): every error a wrapped call raises is either one of the
four canonical kinds or a raw error passed through unchanged, and in the
latter case its message does not contain the text retry; raw errors do
surface unwrapped. -/
theorem c1_canonical_or_raw (opts : ResilienceOptions) (op : Nat → Except JsError JsValue)
    (e : JsError) (h : (withResilienceCall opts op).outcome = .error e) :
    isCanonicalJsError e = true ∨ strIncludes (JsError.message e) "retry" = false := by
  rw [withResilienceCall_eq] at h
  unfold outcomeFromPipeline at h
  rcases hf : executeWithFallback (composedExecute opts op).2 opts.fallback (fallbackCfg opts)
    with ⟨res, warn⟩
  rw [hf] at h
  cases res with
  | ok v => simp at h
  | error e2 =>
    simp only [Except.error.injEq] at h
    rw [← h]
    exact transform_canonical_or_noretry e2 (outerCfg opts)

/-- C1 witness: the amended statement at a concrete failing call. -/
theorem c1_canonical_or_raw_witness :
    (withResilienceCall noPolicyOpts (opOf eBoom)).outcome = .error eBoom ∧
      (isCanonicalJsError eBoom = true ∨
        strIncludes (JsError.message eBoom) "retry" = false) :=
  ⟨rfl, c1_canonical_or_raw noPolicyOpts (opOf eBoom) eBoom rfl⟩

/-- C2 counterexample: with two attempts and an always-failing retryable
error whose message contains the text retry, the wrapped call invokes the
operation twice but the surfaced RetryExhausted does not carry the last
underlying error directly: the transformation layers re-wrap it twice. -/
theorem c2_retry_exhaustion_counterexample :
    (withResilienceCall (retryOnlyOpts 2) (opOf eNetRetry)).invocations = 2 ∧
    (withResilienceCall (retryOnlyOpts 2) (opOf eNetRetry)).outcome =
      .error (.retryExhausted 2 (.retryExhausted 0 (.retryExhausted 2 eNetRetry))) ∧
    JsError.retryExhausted 2 (.retryExhausted 0 (.retryExhausted 2 eNetRetry)) ≠
      .retryExhausted 2 eNetRetry :=
  ⟨rfl, rfl, by decide⟩

/-- C2 (amended): for maxAttempts N and an operation always failing with
errors the default classifier accepts, the wrapped call invokes the
operation exactly N times and fails with RetryExhausted carrying
attempts N; the last underlying error is carried directly unless its
message contains the text retry, in which case it sits nested below an
attempts-zero and another attempts-N wrapper added by the two error
transformations. -/
theorem c2_retry_bound (N : Nat) (hN : 1 ≤ N) (errOf : Nat → JsError)
    (hret : ∀ k, isRetryableError (errOf k) = true) :
    (withResilienceCall (retryOnlyOpts N) (fun k => .error (errOf k))).invocations = N ∧
    ((withResilienceCall (retryOnlyOpts N) (fun k => .error (errOf k))).outcome =
        .error (.retryExhausted N (errOf (N - 1))) ∨
     (withResilienceCall (retryOnlyOpts N) (fun k => .error (errOf k))).outcome =
        .error (.retryExhausted N
          (.retryExhausted 0 (.retryExhausted N (errOf (N - 1)))))) := by
  have hstep : composedExecute (retryOnlyOpts N) (fun k => Except.error (errOf k)) =
      retryExec isRetryableError (fun k => Except.error (errOf k)) 0 (N - 1) := rfl
  have hcomp : composedExecute (retryOnlyOpts N) (fun k => Except.error (errOf k)) =
      (N, .error (.retryExhausted N (errOf (N - 1)))) := by
    rw [hstep, retryExec_allFail isRetryableError errOf hret (N - 1) 0]
    have h1 : 0 + (N - 1) + 1 = N := by omega
    have h2 : 0 + (N - 1) = N - 1 := by omega
    rw [h1, h2]
  constructor
  · rw [withResilienceCall_eq, hcomp]
    exact outcomeFromPipeline_invocations _ _ _
  · rw [withResilienceCall_eq, hcomp]
    cases hx : strIncludes (JsError.message (JsError.retryExhausted N (errOf (N - 1)))) "retry" with
    | false =>
      left
      rw [pipeline_error_outcome _ _ _ rfl]
      rw [transform_passthrough (JsError.retryExhausted N (errOf (N - 1))) _ rfl hx,
        transform_passthrough (JsError.retryExhausted N (errOf (N - 1))) _ rfl hx]
    | true =>
      right
      rw [pipeline_error_outcome _ _ _ rfl]
      rw [transform_wraps (JsError.retryExhausted N (errOf (N - 1))) _ rfl hx]
      rw [transform_wraps
        (JsError.retryExhausted ((fallbackCfg (retryOnlyOpts N)).attempts.getD 0)
          (JsError.retryExhausted N (errOf (N - 1)))) _ rfl
        (strIncludes_append_right
          (("Retry exhausted after " ++
              natToString ((fallbackCfg (retryOnlyOpts N)).attempts.getD 0)) ++ " attempts: ")
          _ _ hx)]
      rfl

/-- C2 witness: the amended statement at two attempts over a constantly
failing HTTP 500 operation. -/
theorem c2_retry_bound_witness :
    (withResilienceCall (retryOnlyOpts 2) (opOf e500)).invocations = 2 ∧
    ((withResilienceCall (retryOnlyOpts 2) (opOf e500)).outcome =
        .error (.retryExhausted 2 e500) ∨
     (withResilienceCall (retryOnlyOpts 2) (opOf e500)).outcome =
        .error (.retryExhausted 2 (.retryExhausted 0 (.retryExhausted 2 e500)))) :=
  c2_retry_bound 2 (by decide) (fun _ => e500) (fun _ => rfl)

/-- C3 counterexample: an always-failing operation with a configured
fallback value resolves to the fallback, but the onFailure metrics
callback is not invoked at all; it is the onSuccess callback that fires,
so the claim that onFailure still fires before the fallback is applied is
false on the code. -/
theorem c3_fallback_metrics_counterexample :
    (withResilienceCall fbOpts (opOf eBoom)).outcome = .ok (.prim "V") ∧
    (withResilienceCall fbOpts (opOf eBoom)).onFailureFired = none ∧
    (withResilienceCall fbOpts (opOf eBoom)).onSuccessFired = true :=
  ⟨rfl, rfl, rfl⟩

/-- C3 (amended): an always-failing operation with a configured
non-function fallback value resolves successfully to the fallback value;
the onFailure metrics callback is not invoked (the call reports success
through onSuccess instead), and only the falling-back warning log carries
the canonical transformed error before the fallback is applied. -/
theorem c3_fallback_substitution (opts : ResilienceOptions)
    (op : Nat → Except JsError JsValue) (tag : String)
    (hfb : opts.fallback = some (.prim tag))
    (hfail : ∀ k, ∃ err, op k = .error err) :
    (withResilienceCall opts op).outcome = .ok (.prim tag) ∧
    (withResilienceCall opts op).onFailureFired = none ∧
    (withResilienceCall opts op).onSuccessFired = true ∧
    (withResilienceCall opts op).fallbackWarn ≠ none := by
  obtain ⟨m, e, hc⟩ := composed_fails opts op hfail
  rw [withResilienceCall_eq, hc]
  unfold outcomeFromPipeline executeWithFallback
  rw [hfb]
  exact ⟨rfl, rfl, rfl, by simp⟩

/-- C3 witness: the amended statement at a concrete failing call with a
value fallback. -/
theorem c3_fallback_substitution_witness :
    (withResilienceCall fbOpts (opOf eBoom)).outcome = .ok (.prim "V") ∧
    (withResilienceCall fbOpts (opOf eBoom)).onFailureFired = none ∧
    (withResilienceCall fbOpts (opOf eBoom)).onSuccessFired = true ∧
    (withResilienceCall fbOpts (opOf eBoom)).fallbackWarn ≠ none :=
  c3_fallback_substitution fbOpts (opOf eBoom) "V" rfl (fun _ => ⟨eBoom, rfl⟩)

/-- C4: with any configured retry whose maxAttempts is at least one, an
operation whose first failure the configured or default classifier
rejects is invoked exactly once by the wrapped call. -/
theorem c4_nonretryable_single_invocation (opts : ResilienceOptions) (ro : RetryOptions)
    (N : Nat) (op : Nat → Except JsError JsValue) (e0 : JsError)
    (hro : opts.retry = some ro) (hN : ro.attempts = some N) (hN1 : 1 ≤ N)
    (hop : op 0 = .error e0)
    (hsr : (ro.shouldRetry.getD isRetryableError) e0 = false) :
    (withResilienceCall opts op).invocations = 1 := by
  have hcomp : composedExecute opts op = (1, .error (.retryExhausted 1 e0)) := by
    unfold composedExecute
    rw [hro]
    dsimp only
    rw [hN]
    simp only [Option.getD_some]
    cases hrem : N - 1 with
    | zero => simp [retryExec, hop]
    | succ r => simp [retryExec, hop, hsr]
  rw [withResilienceCall_eq, hcomp]
  exact outcomeFromPipeline_invocations _ _ _

/-- C4 witness: an HTTP 404 failure under five configured attempts runs
the operation exactly once. -/
theorem c4_nonretryable_single_invocation_witness :
    (withResilienceCall (retryOnlyOpts 5) (opOf e404)).invocations = 1 :=
  c4_nonretryable_single_invocation (retryOnlyOpts 5) { attempts := some 5 } 5
    (opOf e404) e404 rfl rfl (by decide) rfl rfl

/-- C5: the default classifier returns false on every error carrying one
of the non-retryable HTTP status codes, true on every error carrying a
status code of at least 500, and on every remaining error it returns true
exactly when the error is network-like (a recognized network code or a
network or fetch-failed message) and false otherwise. -/
theorem c5_default_classifier (e : JsError) :
    (∀ s : Int, httpStatusOf e = some s → NON_RETRYABLE_STATUS_CODES.contains s = true →
        isRetryableError e = false) ∧
    (∀ s : Int, httpStatusOf e = some s → 500 ≤ s → isRetryableError e = true) ∧
    ((∀ s : Int, httpStatusOf e = some s →
        NON_RETRYABLE_STATUS_CODES.contains s = false ∧ s < 500) →
      isRetryableError e = isNetworkError e) := by
  unfold isRetryableError httpStatusOf
  by_cases hh : isHttpError e
  · rw [if_pos hh, if_pos hh]
    cases hs : getStatusCode e with
    | none =>
      refine ⟨?_, ?_, fun _ => rfl⟩ <;> (intro s h; exact Option.noConfusion h)
    | some s =>
      dsimp only
      refine ⟨?_, ?_, ?_⟩
      · intro t ht hcon
        obtain rfl : s = t := Option.some.inj ht
        rw [hcon]
        rfl
      · intro t ht hge
        obtain rfl : s = t := Option.some.inj ht
        have hcon : NON_RETRYABLE_STATUS_CODES.contains s = false := by
          simp [NON_RETRYABLE_STATUS_CODES, List.contains]
          omega
        rw [hcon, if_neg (by simp), if_pos hge]
        rfl
      · intro hall
        obtain ⟨hcon, hlt⟩ := hall s rfl
        rw [hcon, if_neg (by simp), if_neg (by omega)]
        rfl
  · rw [if_neg hh, if_neg hh]
    refine ⟨?_, ?_, fun _ => rfl⟩ <;> (intro s h; exact Option.noConfusion h)

/-- C5 witness: the classifier at a 404, a 500, an ECONNRESET and an
unclassified error. -/
theorem c5_default_classifier_witness :
    isRetryableError e404 = false ∧ isRetryableError e500 = true ∧
    isRetryableError eConnReset = true ∧ isRetryableError eUnknown = false := by
  refine ⟨(c5_default_classifier e404).1 404 rfl (by decide),
    (c5_default_classifier e500).2.1 500 rfl (by decide), ?_, ?_⟩
  · exact ((c5_default_classifier eConnReset).2.2
      (fun s h => Option.noConfusion h)).trans rfl
  · exact ((c5_default_classifier eUnknown).2.2
      (fun s h => Option.noConfusion h)).trans rfl

/-- C6: when every concurrency slot is taken and the wait queue is at
capacity, the bulkhead rejects synchronously without enqueuing the caller
(the state is unchanged), and the error the wrapped call surfaces for a
cockatiel bulkhead rejection is BulkheadRejectedError whose queueSize and
maxQueue both equal the configured maxQueue. -/
theorem c6_bulkhead_rejection (mc mq : Nat) (st : BulkheadState)
    (opts : ResilienceOptions) (bo : BulkheadOptions) (q invs : Nat)
    (h1 : mc ≤ st.inFlight) (h2 : mq ≤ st.queueLen)
    (hb : opts.bulkhead = some bo) (hq : bo.maxQueue = some q)
    (hfb : opts.fallback = none) :
    bulkheadAcquire mc mq st = (.rejected, st) ∧
    (outcomeFromPipeline opts invs (.error .cockatielBulkheadRejected)).outcome =
      .error (.bulkheadRejectedErr q q) := by
  constructor
  · unfold bulkheadAcquire
    rw [if_neg (by omega), if_neg (by omega)]
  · rw [pipeline_error_outcome _ _ _ hfb]
    have hmq : cfgMaxQueue opts = q := by
      unfold cfgMaxQueue
      rw [hb, Option.some_bind, hq, Option.getD_some]
    rw [show transformCockatielError JsError.cockatielBulkheadRejected (fallbackCfg opts) =
        .bulkheadRejectedErr (cfgMaxQueue opts) (cfgMaxQueue opts) from rfl]
    rw [transform_passthrough (JsError.bulkheadRejectedErr (cfgMaxQueue opts) (cfgMaxQueue opts))
      _ rfl (bulkheadMsg_no_retry _ _)]
    rw [hmq]

/-- C6 witness: a full bulkhead with one slot and an empty queue of
capacity zero rejects in place, and the surfaced error carries zero for
both queueSize and maxQueue. -/
theorem c6_bulkhead_rejection_witness :
    bulkheadAcquire 1 0 ⟨1, 0⟩ = (.rejected, ⟨1, 0⟩) ∧
    (outcomeFromPipeline bhOpts 0 (.error .cockatielBulkheadRejected)).outcome =
      .error (.bulkheadRejectedErr 0 0) :=
  c6_bulkhead_rejection 1 0 ⟨1, 0⟩ bhOpts { maxConcurrent := some 1, maxQueue := some 0 } 0 0
    (by decide) (by decide) rfl rfl rfl

/-- C7: under baseDelay at most maxDelay, the computed backoff delay is
the capped doubling formula for the exponential kind and the base delay
for the fixed kind, it never exceeds maxDelay, and with jitter disabled
the realized delay equals the computed delay. -/
theorem c7_backoff_delay (base maxD attempt sample : Nat) (k : BackoffKind)
    (h : base ≤ maxD) :
    computedDelay .exponential base maxD attempt = min (base * 2 ^ (attempt - 1)) maxD ∧
    computedDelay .fixed base maxD attempt = base ∧
    computedDelay k base maxD attempt ≤ maxD ∧
    realizedDelay false sample (computedDelay k base maxD attempt) =
      computedDelay k base maxD attempt := by
  refine ⟨rfl, rfl, ?_, rfl⟩
  cases k with
  | exponential => exact min_le_right _ _
  | fixed => exact h

/-- C7 witness: the spec example with baseDelay 50 and maxDelay 100 at
attempt 3. -/
theorem c7_backoff_delay_witness :
    computedDelay .exponential 50 100 3 = min (50 * 2 ^ (3 - 1)) 100 ∧
    computedDelay .fixed 50 100 3 = 50 ∧
    computedDelay .exponential 50 100 3 ≤ 100 ∧
    realizedDelay false 7 (computedDelay .exponential 50 100 3) =
      computedDelay .exponential 50 100 3 :=
  c7_backoff_delay 50 100 3 7 .exponential (by decide)

/-- C8 counterexample: with no policy configured, an operation failing
with an error whose message contains the text retry does not have its own
error propagated: the wrapped call surfaces a doubly wrapped
RetryExhaustedError with attempts three, so the identity pass-through
claim is false on the code. -/
theorem c8_identity_counterexample :
    (withResilienceCall noPolicyOpts (opOf eRetryMsg)).invocations = 1 ∧
    (withResilienceCall noPolicyOpts (opOf eRetryMsg)).outcome =
      .error (.retryExhausted 3 (.retryExhausted 0 eRetryMsg)) ∧
    JsError.retryExhausted 3 (.retryExhausted 0 eRetryMsg) ≠ eRetryMsg :=
  ⟨rfl, rfl, by decide⟩

/-- C8 (amended): with none of retry, bulkhead, timeout or fallback
configured, the wrapped call invokes the operation exactly once and
returns its success value unchanged, and a failure propagates the
operation error unchanged provided the error is not one of the cockatiel
error classes and its message does not contain the text retry; otherwise
the error transformation rewrites it. -/
theorem c8_identity_passthrough (op : Nat → Except JsError JsValue) :
    (withResilienceCall noPolicyOpts op).invocations = 1 ∧
    (∀ v, op 0 = .ok v → (withResilienceCall noPolicyOpts op).outcome = .ok v) ∧
    (∀ e, op 0 = .error e → isCockatielInstance e = false →
      strIncludes (JsError.message e) "retry" = false →
      (withResilienceCall noPolicyOpts op).outcome = .error e) := by
  have hcomp : composedExecute noPolicyOpts op = (1, op 0) := rfl
  refine ⟨?_, ?_, ?_⟩
  · rw [withResilienceCall_eq, hcomp]
    exact outcomeFromPipeline_invocations _ _ _
  · intro v hv
    rw [withResilienceCall_eq, hcomp, hv]
    rfl
  · intro e he hci hm
    rw [withResilienceCall_eq, hcomp, he, pipeline_error_outcome _ _ _ rfl]
    rw [transform_passthrough e _ hci hm, transform_passthrough e _ hci hm]

/-- C8 witness: the amended statement at a concrete plain failure. -/
theorem c8_identity_passthrough_witness :
    (withResilienceCall noPolicyOpts (opOf eBoom)).invocations = 1 ∧
    (withResilienceCall noPolicyOpts (opOf eBoom)).outcome = .error eBoom :=
  ⟨(c8_identity_passthrough (opOf eBoom)).1,
   (c8_identity_passthrough (opOf eBoom)).2.2 eBoom rfl rfl rfl⟩

/-- C9: any error that is not one of the cockatiel error classes but whose
message contains the lowercase text retry is wrapped by the outer error
transformation of the wrapped call into RetryExhaustedError carrying the
configured retry attempts, and with no retry configuration at all that
attempts value is the default three. -/
theorem c9_retry_message_wrap (opts : ResilienceOptions) (e : JsError)
    (h1 : isCockatielInstance e = false)
    (h2 : strIncludes (JsError.message e) "retry" = true) :
    transformCockatielError e (outerCfg opts) = .retryExhausted (cfgAttempts opts) e ∧
    (opts.retry = none → cfgAttempts opts = RETRY_DEFAULTS_attempts) := by
  constructor
  · rw [transform_wraps e _ h1 h2]
    rfl
  · intro hr
    unfold cfgAttempts
    rw [hr]
    rfl

/-- C9 witness: a plain error whose message contains the text retry is
wrapped with attempts three under options with no retry configured. -/
theorem c9_retry_message_wrap_witness :
    transformCockatielError eRetryMsg (outerCfg noPolicyOpts) =
      .retryExhausted (cfgAttempts noPolicyOpts) eRetryMsg ∧
    cfgAttempts noPolicyOpts = 3 :=
  ⟨(c9_retry_message_wrap noPolicyOpts eRetryMsg rfl rfl).1,
   (c9_retry_message_wrap noPolicyOpts eRetryMsg rfl rfl).2 rfl⟩

/-- C10: a fallback that is a function value is never returned as a value:
when the pipeline fails, the wrapped call resolves to the result of
calling that function on the transformed error. -/
theorem c10_fallback_function_called (opts : ResilienceOptions)
    (op : Nat → Except JsError JsValue) (g : JsError → JsValue) (m : Nat) (e : JsError)
    (hfb : opts.fallback = some (.func g))
    (hc : composedExecute opts op = (m, .error e)) :
    (withResilienceCall opts op).outcome =
      .ok (g (transformCockatielError e (fallbackCfg opts))) := by
  rw [withResilienceCall_eq, hc]
  unfold outcomeFromPipeline executeWithFallback
  rw [hfb]

/-- C10 witness: a concrete function fallback is called and its result is
returned instead of the function value itself. -/
theorem c10_fallback_function_called_witness :
    (withResilienceCall fnOpts (opOf eBoom)).outcome = .ok (.prim "called") :=
  c10_fallback_function_called fnOpts (opOf eBoom) gCalled 1 eBoom rfl rfl
